import Mathlib

/-!
Verification of the Modbus data-conversion library (`src/modbus_conversion.c`,
`src/modbus_conversion.h`) against its natural-language specification.

The C code is shallowly embedded: 16-bit register words are `Nat` values
(callers supply values below `2 ^ 16`), byte buffers are `List Nat`, machine
integers are `Nat`/`Int` with explicit wrap-around where the code narrows, and
nullable pointers are `Option` (for the register array) or a `Bool` flag (for
the result out-parameter).  Each C conversion function becomes a Lean function
returning the C `int` status code together with the final contents of the
caller's result slot; an error path that returns without writing yields the
slot's previous contents unchanged.

The C `double` scaling factor is embedded as `Rat`, and the multiply-then-cast
sequence (`(intN_t)(value * scaling_factor)`) as exact rational multiplication
followed by truncation toward zero and wrap-around to the target width; this
agrees with the C computation whenever the double arithmetic is exact, which
holds for every scaling scenario the specification states.  The two IEEE-float
decoders produce a raw bit pattern and then apply an uninterpreted
float-multiplication parameter (`fmul32` / `fmul64 : Nat → Rat → Nat`, bit
pattern × scaling factor → result bit pattern), so theorems about them hold
for every floating-point semantics.
-/

/-! ## Error codes (modbus_conversion.h) -/

def MODBUS_CONV_OK : Int := 0
def MODBUS_CONV_ERR_NULL_PTR : Int := -1
def MODBUS_CONV_ERR_INVALID_TYPE : Int := -2
def MODBUS_CONV_ERR_INVALID_BIT : Int := -3
def MODBUS_CONV_ERR_INSUFF_REGS : Int := -4
def MODBUS_CONV_ERR_UNKNOWN : Int := -5

/-! ## Data type enumeration (modbus_conversion.h) -/

/-- The `modbus_data_type_t` enumeration, in declaration order. -/
inductive modbus_data_type_t where
  | MODBUS_BIT_BOOLEAN
  | MODBUS_INT8_SIGNED
  | MODBUS_INT8_UNSIGNED
  | MODBUS_INT16_SIGNED_AB
  | MODBUS_INT16_SIGNED_BA
  | MODBUS_INT16_UNSIGNED_AB
  | MODBUS_INT16_UNSIGNED_BA
  | MODBUS_INT32_SIGNED_ABCD
  | MODBUS_INT32_SIGNED_DCBA
  | MODBUS_INT32_SIGNED_BADC
  | MODBUS_INT32_SIGNED_CDAB
  | MODBUS_INT32_UNSIGNED_ABCD
  | MODBUS_INT32_UNSIGNED_DCBA
  | MODBUS_INT32_UNSIGNED_BADC
  | MODBUS_INT32_UNSIGNED_CDAB
  | MODBUS_INT64_SIGNED_ABCDEFGH
  | MODBUS_INT64_SIGNED_HGFEDCBA
  | MODBUS_INT64_SIGNED_BADCFEHG
  | MODBUS_INT64_SIGNED_CDABGHEF
  | MODBUS_INT64_SIGNED_DCBAHGFE
  | MODBUS_INT64_SIGNED_GHEFCDAB
  | MODBUS_INT64_SIGNED_FEHGBADC
  | MODBUS_INT64_SIGNED_EFGHABCD
  | MODBUS_INT64_UNSIGNED_ABCDEFGH
  | MODBUS_INT64_UNSIGNED_HGFEDCBA
  | MODBUS_INT64_UNSIGNED_BADCFEHG
  | MODBUS_INT64_UNSIGNED_CDABGHEF
  | MODBUS_INT64_UNSIGNED_DCBAHGFE
  | MODBUS_INT64_UNSIGNED_GHEFCDAB
  | MODBUS_INT64_UNSIGNED_FEHGBADC
  | MODBUS_INT64_UNSIGNED_EFGHABCD
  | MODBUS_IEEE_FLOAT32_ABCD
  | MODBUS_IEEE_FLOAT32_CDAB
  | MODBUS_IEEE_FLOAT32_DCBA
  | MODBUS_IEEE_FLOAT32_BADC
  | MODBUS_IEEE_FLOAT64_ABCDEFGH
  | MODBUS_IEEE_FLOAT64_HGFEDCBA
  | MODBUS_IEEE_FLOAT64_BADCFEHG
  | MODBUS_IEEE_FLOAT64_CDABGHEF
  | MODBUS_IEEE_FLOAT64_DCBAHGFE
  | MODBUS_IEEE_FLOAT64_GHEFCDAB
  | MODBUS_IEEE_FLOAT64_FEHGBADC
  | MODBUS_IEEE_FLOAT64_EFGHABCD
deriving DecidableEq, Repr

open modbus_data_type_t

/-- C enum ordinal of each `modbus_data_type_t` tag (first enumerator is 0).
The C dispatcher compares tags with `<=` / `>=`, which compares these
ordinals. -/
def tag : modbus_data_type_t → Nat
  | MODBUS_BIT_BOOLEAN => 0
  | MODBUS_INT8_SIGNED => 1
  | MODBUS_INT8_UNSIGNED => 2
  | MODBUS_INT16_SIGNED_AB => 3
  | MODBUS_INT16_SIGNED_BA => 4
  | MODBUS_INT16_UNSIGNED_AB => 5
  | MODBUS_INT16_UNSIGNED_BA => 6
  | MODBUS_INT32_SIGNED_ABCD => 7
  | MODBUS_INT32_SIGNED_DCBA => 8
  | MODBUS_INT32_SIGNED_BADC => 9
  | MODBUS_INT32_SIGNED_CDAB => 10
  | MODBUS_INT32_UNSIGNED_ABCD => 11
  | MODBUS_INT32_UNSIGNED_DCBA => 12
  | MODBUS_INT32_UNSIGNED_BADC => 13
  | MODBUS_INT32_UNSIGNED_CDAB => 14
  | MODBUS_INT64_SIGNED_ABCDEFGH => 15
  | MODBUS_INT64_SIGNED_HGFEDCBA => 16
  | MODBUS_INT64_SIGNED_BADCFEHG => 17
  | MODBUS_INT64_SIGNED_CDABGHEF => 18
  | MODBUS_INT64_SIGNED_DCBAHGFE => 19
  | MODBUS_INT64_SIGNED_GHEFCDAB => 20
  | MODBUS_INT64_SIGNED_FEHGBADC => 21
  | MODBUS_INT64_SIGNED_EFGHABCD => 22
  | MODBUS_INT64_UNSIGNED_ABCDEFGH => 23
  | MODBUS_INT64_UNSIGNED_HGFEDCBA => 24
  | MODBUS_INT64_UNSIGNED_BADCFEHG => 25
  | MODBUS_INT64_UNSIGNED_CDABGHEF => 26
  | MODBUS_INT64_UNSIGNED_DCBAHGFE => 27
  | MODBUS_INT64_UNSIGNED_GHEFCDAB => 28
  | MODBUS_INT64_UNSIGNED_FEHGBADC => 29
  | MODBUS_INT64_UNSIGNED_EFGHABCD => 30
  | MODBUS_IEEE_FLOAT32_ABCD => 31
  | MODBUS_IEEE_FLOAT32_CDAB => 32
  | MODBUS_IEEE_FLOAT32_DCBA => 33
  | MODBUS_IEEE_FLOAT32_BADC => 34
  | MODBUS_IEEE_FLOAT64_ABCDEFGH => 35
  | MODBUS_IEEE_FLOAT64_HGFEDCBA => 36
  | MODBUS_IEEE_FLOAT64_BADCFEHG => 37
  | MODBUS_IEEE_FLOAT64_CDABGHEF => 38
  | MODBUS_IEEE_FLOAT64_DCBAHGFE => 39
  | MODBUS_IEEE_FLOAT64_GHEFCDAB => 40
  | MODBUS_IEEE_FLOAT64_FEHGBADC => 41
  | MODBUS_IEEE_FLOAT64_EFGHABCD => 42

/-! ## Result union (modbus_value_t)

The C result is a union; the model keeps one field per member.  Error paths
never write, success paths write exactly the member selected by the data
type, so no claim depends on union aliasing.  The two float members hold
IEEE bit patterns. -/

/-- Model of the C `modbus_value_t` union as a record of all members. -/
structure modbus_value_t where
  bool_val : Bool
  i8 : Int
  u8 : Nat
  i16 : Int
  u16 : Nat
  i32 : Int
  u32 : Nat
  i64 : Int
  u64 : Nat
  f32 : Nat
  f64 : Nat
deriving DecidableEq, Repr

/-! ## Numeric helpers for the embedding -/

/-- Unchecked C array read `regs[i]`, totalized with 0.  Every claim below
supplies at least as many words as the decoder reads, matching the caller
contract stated in the specification (§3, §7). -/
def regIdx (regs : List Nat) (i : Nat) : Nat := regs.getD i 0

/-- Truncation toward zero of a rational, the rounding a C
floating-to-integer cast performs (C11 6.3.1.4). -/
def fp_trunc (q : Rat) : Int := Int.tdiv q.num q.den

/-- Wrap an integer into the unsigned range `[0, 2^w)`, the effect the
specification assigns to narrowing into a `w`-bit unsigned result (§4.7:
values that overflow the target width wrap). -/
def wrapU (w : Nat) (z : Int) : Nat := (z % ((2 : Int) ^ w)).toNat

/-- Wrap an integer into the signed two's-complement range
`[-2^(w-1), 2^(w-1))` (§4.7 wrap-on-overflow for signed targets). -/
def wrapS (w : Nat) (z : Int) : Int :=
  let m := z % ((2 : Int) ^ w)
  if m < (2 : Int) ^ (w - 1) then m else m - (2 : Int) ^ w

/-- Reinterpretation of a `w`-bit unsigned bit pattern as a two's-complement
signed value, the effect of the C casts `(int32_t)u32_val` /
`(int64_t)u64_val`. -/
def toSigned (w : Nat) (n : Nat) : Int :=
  if n < 2 ^ (w - 1) then (n : Int) else (n : Int) - (2 : Int) ^ w

/-! ## Helper functions (modbus_conversion.c, lines 516-539) -/

/-- C `swap_bytes_16`: `((value & 0xFF) << 8) | ((value >> 8) & 0xFF)`. -/
def swap_bytes_16 (value : Nat) : Nat :=
  ((value &&& 0xFF) <<< 8) ||| ((value >>> 8) &&& 0xFF)

/-- C `regs_to_bytes`: each register word becomes its high byte
(`(regs[i] >> 8) & 0xFF`) followed by its low byte (`regs[i] & 0xFF`). -/
def regs_to_bytes : List Nat → List Nat
  | [] => []
  | r :: rs => ((r >>> 8) &&& 0xFF) :: (r &&& 0xFF) :: regs_to_bytes rs

/-- C `bytes_reverse` swaps `bytes[i]` with `bytes[len-1-i]` for
`i < len / 2`, which reverses the buffer. -/
def bytes_reverse (bytes : List Nat) : List Nat := bytes.reverse

/-- Big-endian assembly of 4 bytes into a 32-bit value
(`(bytes[0] << 24) | (bytes[1] << 16) | (bytes[2] << 8) | bytes[3]`,
modbus_conversion.c lines 210-213 and 383-386). -/
def bytes_to_u32 (bytes : List Nat) : Nat :=
  ((regIdx bytes 0) <<< 24) ||| ((regIdx bytes 1) <<< 16) |||
    ((regIdx bytes 2) <<< 8) ||| (regIdx bytes 3)

/-- Big-endian assembly of 8 bytes into a 64-bit value
(modbus_conversion.c lines 318-325 and 479-486). -/
def bytes_to_u64 (bytes : List Nat) : Nat :=
  ((regIdx bytes 0) <<< 56) ||| ((regIdx bytes 1) <<< 48) |||
    ((regIdx bytes 2) <<< 40) ||| ((regIdx bytes 3) <<< 32) |||
    ((regIdx bytes 4) <<< 24) ||| ((regIdx bytes 5) <<< 16) |||
    ((regIdx bytes 6) <<< 8) ||| (regIdx bytes 7)

/-! ## Conversion functions (modbus_conversion.c)

Each function returns the C status code paired with the final contents of the
caller's result slot; `old` is the slot's contents before the call and is
returned unchanged on every path that returns without writing.  A `none`
register argument models a null `registers` pointer; `result_null = true`
models a null result pointer. -/

/-- C `modbus_convert_bit_bool` (lines 86-100). -/
def modbus_convert_bit_bool (registers : Option (List Nat)) (bit_pos : Nat)
    (result_null : Bool) (old : Bool) : Int × Bool :=
  match registers with
  | none => (MODBUS_CONV_ERR_NULL_PTR, old)
  | some regs =>
    if result_null then (MODBUS_CONV_ERR_NULL_PTR, old)
    else if bit_pos > 15 then (MODBUS_CONV_ERR_INVALID_BIT, old)
    else (MODBUS_CONV_OK, ((regIdx regs 0 >>> bit_pos) &&& 1) != 0)

/-- C `modbus_convert_int8_signed` (lines 103-115). -/
def modbus_convert_int8_signed (registers : Option (List Nat))
    (scaling_factor : Rat) (result_null : Bool) (old : Int) : Int × Int :=
  match registers with
  | none => (MODBUS_CONV_ERR_NULL_PTR, old)
  | some regs =>
    if result_null then (MODBUS_CONV_ERR_NULL_PTR, old)
    else
      let val : Nat := regIdx regs 0 &&& 0xFF
      let signed_val : Int := if val > 127 then (val : Int) - 256 else (val : Int)
      (MODBUS_CONV_OK, wrapS 8 (fp_trunc ((signed_val : Rat) * scaling_factor)))

/-- C `modbus_convert_int8_unsigned` (lines 118-128). -/
def modbus_convert_int8_unsigned (registers : Option (List Nat))
    (scaling_factor : Rat) (result_null : Bool) (old : Nat) : Int × Nat :=
  match registers with
  | none => (MODBUS_CONV_ERR_NULL_PTR, old)
  | some regs =>
    if result_null then (MODBUS_CONV_ERR_NULL_PTR, old)
    else
      let val : Nat := regIdx regs 0 &&& 0xFF
      (MODBUS_CONV_OK, wrapU 8 (fp_trunc ((val : Rat) * scaling_factor)))

/-- C `modbus_convert_int16_signed` (lines 131-144). -/
def modbus_convert_int16_signed (registers : Option (List Nat))
    (swap_flag : Bool) (scaling_factor : Rat) (result_null : Bool)
    (old : Int) : Int × Int :=
  match registers with
  | none => (MODBUS_CONV_ERR_NULL_PTR, old)
  | some regs =>
    if result_null then (MODBUS_CONV_ERR_NULL_PTR, old)
    else
      let val : Nat := if swap_flag then swap_bytes_16 (regIdx regs 0) else regIdx regs 0
      let signed_val : Int := if val > 32767 then (val : Int) - 65536 else (val : Int)
      (MODBUS_CONV_OK, wrapS 16 (fp_trunc ((signed_val : Rat) * scaling_factor)))

/-- C `modbus_convert_int16_unsigned` (lines 147-159). -/
def modbus_convert_int16_unsigned (registers : Option (List Nat))
    (swap_flag : Bool) (scaling_factor : Rat) (result_null : Bool)
    (old : Nat) : Int × Nat :=
  match registers with
  | none => (MODBUS_CONV_ERR_NULL_PTR, old)
  | some regs =>
    if result_null then (MODBUS_CONV_ERR_NULL_PTR, old)
    else
      let val : Nat := if swap_flag then swap_bytes_16 (regIdx regs 0) else regIdx regs 0
      (MODBUS_CONV_OK, wrapU 16 (fp_trunc ((val : Rat) * scaling_factor)))

/-- Byte-reordering switch of C `modbus_convert_int32` (lines 175-207):
`none` models the `default` branch that returns `MODBUS_CONV_ERR_INVALID_TYPE`
before any bytes are produced. -/
def modbus_int32_bytes (regs : List Nat) (data_type : modbus_data_type_t) :
    Option (List Nat) :=
  match data_type with
  | MODBUS_INT32_SIGNED_ABCD | MODBUS_INT32_UNSIGNED_ABCD =>
    some (regs_to_bytes [regIdx regs 0, regIdx regs 1])
  | MODBUS_INT32_SIGNED_DCBA | MODBUS_INT32_UNSIGNED_DCBA =>
    some (bytes_reverse (regs_to_bytes [regIdx regs 1, regIdx regs 0]))
  | MODBUS_INT32_SIGNED_BADC | MODBUS_INT32_UNSIGNED_BADC =>
    some (regs_to_bytes [swap_bytes_16 (regIdx regs 0), swap_bytes_16 (regIdx regs 1)])
  | MODBUS_INT32_SIGNED_CDAB | MODBUS_INT32_UNSIGNED_CDAB =>
    some (regs_to_bytes [regIdx regs 1, regIdx regs 0])
  | _ => none

/-- C `modbus_convert_int32` (lines 162-224). -/
def modbus_convert_int32 (registers : Option (List Nat))
    (data_type : modbus_data_type_t) (scaling_factor : Rat)
    (result_null : Bool) (old : modbus_value_t) : Int × modbus_value_t :=
  match registers with
  | none => (MODBUS_CONV_ERR_NULL_PTR, old)
  | some regs =>
    if result_null then (MODBUS_CONV_ERR_NULL_PTR, old)
    else
      match modbus_int32_bytes regs data_type with
      | none => (MODBUS_CONV_ERR_INVALID_TYPE, old)
      | some bytes =>
        let u32_val : Nat := bytes_to_u32 bytes
        if tag MODBUS_INT32_UNSIGNED_ABCD ≤ tag data_type ∧
            tag data_type ≤ tag MODBUS_INT32_UNSIGNED_CDAB then
          (MODBUS_CONV_OK,
            { old with u32 := wrapU 32 (fp_trunc ((u32_val : Rat) * scaling_factor)) })
        else
          let i32_val : Int := toSigned 32 u32_val
          (MODBUS_CONV_OK,
            { old with i32 := wrapS 32 (fp_trunc ((i32_val : Rat) * scaling_factor)) })

/-- Byte-reordering switch of C `modbus_convert_int64` (lines 241-315). -/
def modbus_int64_bytes (regs : List Nat) (data_type : modbus_data_type_t) :
    Option (List Nat) :=
  match data_type with
  | MODBUS_INT64_SIGNED_ABCDEFGH | MODBUS_INT64_UNSIGNED_ABCDEFGH =>
    some (regs_to_bytes [regIdx regs 0, regIdx regs 1, regIdx regs 2, regIdx regs 3])
  | MODBUS_INT64_SIGNED_HGFEDCBA | MODBUS_INT64_UNSIGNED_HGFEDCBA =>
    some (bytes_reverse (regs_to_bytes
      [regIdx regs 3, regIdx regs 2, regIdx regs 1, regIdx regs 0]))
  | MODBUS_INT64_SIGNED_BADCFEHG | MODBUS_INT64_UNSIGNED_BADCFEHG =>
    some (regs_to_bytes [swap_bytes_16 (regIdx regs 0), swap_bytes_16 (regIdx regs 1),
      swap_bytes_16 (regIdx regs 2), swap_bytes_16 (regIdx regs 3)])
  | MODBUS_INT64_SIGNED_CDABGHEF | MODBUS_INT64_UNSIGNED_CDABGHEF =>
    some (regs_to_bytes [regIdx regs 1, regIdx regs 0, regIdx regs 3, regIdx regs 2])
  | MODBUS_INT64_SIGNED_DCBAHGFE | MODBUS_INT64_UNSIGNED_DCBAHGFE =>
    some (bytes_reverse (regs_to_bytes [swap_bytes_16 (regIdx regs 3),
      swap_bytes_16 (regIdx regs 2), swap_bytes_16 (regIdx regs 1),
      swap_bytes_16 (regIdx regs 0)]))
  | MODBUS_INT64_SIGNED_GHEFCDAB | MODBUS_INT64_UNSIGNED_GHEFCDAB =>
    some (bytes_reverse (regs_to_bytes
      [regIdx regs 3, regIdx regs 2, regIdx regs 1, regIdx regs 0]))
  | MODBUS_INT64_SIGNED_FEHGBADC | MODBUS_INT64_UNSIGNED_FEHGBADC =>
    some (bytes_reverse (regs_to_bytes
      [regIdx regs 2, regIdx regs 3, regIdx regs 0, regIdx regs 1]))
  | MODBUS_INT64_SIGNED_EFGHABCD | MODBUS_INT64_UNSIGNED_EFGHABCD =>
    some (bytes_reverse (regs_to_bytes [swap_bytes_16 (regIdx regs 2),
      swap_bytes_16 (regIdx regs 3), swap_bytes_16 (regIdx regs 0),
      swap_bytes_16 (regIdx regs 1)]))
  | _ => none

/-- C `modbus_convert_int64` (lines 227-336). -/
def modbus_convert_int64 (registers : Option (List Nat))
    (data_type : modbus_data_type_t) (scaling_factor : Rat)
    (result_null : Bool) (old : modbus_value_t) : Int × modbus_value_t :=
  match registers with
  | none => (MODBUS_CONV_ERR_NULL_PTR, old)
  | some regs =>
    if result_null then (MODBUS_CONV_ERR_NULL_PTR, old)
    else
      match modbus_int64_bytes regs data_type with
      | none => (MODBUS_CONV_ERR_INVALID_TYPE, old)
      | some bytes =>
        let u64_val : Nat := bytes_to_u64 bytes
        if tag MODBUS_INT64_UNSIGNED_ABCDEFGH ≤ tag data_type ∧
            tag data_type ≤ tag MODBUS_INT64_UNSIGNED_EFGHABCD then
          (MODBUS_CONV_OK,
            { old with u64 := wrapU 64 (fp_trunc ((u64_val : Rat) * scaling_factor)) })
        else
          let i64_val : Int := toSigned 64 u64_val
          (MODBUS_CONV_OK,
            { old with i64 := wrapS 64 (fp_trunc ((i64_val : Rat) * scaling_factor)) })

/-- Byte-reordering switch of C `modbus_convert_float32` (lines 352-380). -/
def modbus_float32_bytes (regs : List Nat) (data_type : modbus_data_type_t) :
    Option (List Nat) :=
  match data_type with
  | MODBUS_IEEE_FLOAT32_ABCD =>
    some (regs_to_bytes [regIdx regs 0, regIdx regs 1])
  | MODBUS_IEEE_FLOAT32_CDAB =>
    some (regs_to_bytes [regIdx regs 1, regIdx regs 0])
  | MODBUS_IEEE_FLOAT32_DCBA =>
    some (bytes_reverse (regs_to_bytes [regIdx regs 1, regIdx regs 0]))
  | MODBUS_IEEE_FLOAT32_BADC =>
    some (regs_to_bytes [swap_bytes_16 (regIdx regs 0), swap_bytes_16 (regIdx regs 1)])
  | _ => none

/-- C `modbus_convert_float32` (lines 339-393).  The slot holds the stored
float's binary32 bit pattern; `fmul32` interprets the C statement
`*result = f32_val * scaling_factor` on bit patterns. -/
def modbus_convert_float32 (fmul32 : Nat → Rat → Nat)
    (registers : Option (List Nat)) (data_type : modbus_data_type_t)
    (scaling_factor : Rat) (result_null : Bool) (old : Nat) : Int × Nat :=
  match registers with
  | none => (MODBUS_CONV_ERR_NULL_PTR, old)
  | some regs =>
    if result_null then (MODBUS_CONV_ERR_NULL_PTR, old)
    else
      match modbus_float32_bytes regs data_type with
      | none => (MODBUS_CONV_ERR_INVALID_TYPE, old)
      | some bytes => (MODBUS_CONV_OK, fmul32 (bytes_to_u32 bytes) scaling_factor)

/-- Byte-reordering switch of C `modbus_convert_float64` (lines 410-476),
statement-for-statement the same switch as `modbus_convert_int64`. -/
def modbus_float64_bytes (regs : List Nat) (data_type : modbus_data_type_t) :
    Option (List Nat) :=
  match data_type with
  | MODBUS_IEEE_FLOAT64_ABCDEFGH =>
    some (regs_to_bytes [regIdx regs 0, regIdx regs 1, regIdx regs 2, regIdx regs 3])
  | MODBUS_IEEE_FLOAT64_HGFEDCBA =>
    some (bytes_reverse (regs_to_bytes
      [regIdx regs 3, regIdx regs 2, regIdx regs 1, regIdx regs 0]))
  | MODBUS_IEEE_FLOAT64_BADCFEHG =>
    some (regs_to_bytes [swap_bytes_16 (regIdx regs 0), swap_bytes_16 (regIdx regs 1),
      swap_bytes_16 (regIdx regs 2), swap_bytes_16 (regIdx regs 3)])
  | MODBUS_IEEE_FLOAT64_CDABGHEF =>
    some (regs_to_bytes [regIdx regs 1, regIdx regs 0, regIdx regs 3, regIdx regs 2])
  | MODBUS_IEEE_FLOAT64_DCBAHGFE =>
    some (bytes_reverse (regs_to_bytes [swap_bytes_16 (regIdx regs 3),
      swap_bytes_16 (regIdx regs 2), swap_bytes_16 (regIdx regs 1),
      swap_bytes_16 (regIdx regs 0)]))
  | MODBUS_IEEE_FLOAT64_GHEFCDAB =>
    some (bytes_reverse (regs_to_bytes
      [regIdx regs 3, regIdx regs 2, regIdx regs 1, regIdx regs 0]))
  | MODBUS_IEEE_FLOAT64_FEHGBADC =>
    some (bytes_reverse (regs_to_bytes
      [regIdx regs 2, regIdx regs 3, regIdx regs 0, regIdx regs 1]))
  | MODBUS_IEEE_FLOAT64_EFGHABCD =>
    some (bytes_reverse (regs_to_bytes [swap_bytes_16 (regIdx regs 2),
      swap_bytes_16 (regIdx regs 3), swap_bytes_16 (regIdx regs 0),
      swap_bytes_16 (regIdx regs 1)]))
  | _ => none

/-- C `modbus_convert_float64` (lines 396-493).  The slot holds the stored
double's binary64 bit pattern; `fmul64` interprets the C statement
`*result = f64_val * scaling_factor` on bit patterns. -/
def modbus_convert_float64 (fmul64 : Nat → Rat → Nat)
    (registers : Option (List Nat)) (data_type : modbus_data_type_t)
    (scaling_factor : Rat) (result_null : Bool) (old : Nat) : Int × Nat :=
  match registers with
  | none => (MODBUS_CONV_ERR_NULL_PTR, old)
  | some regs =>
    if result_null then (MODBUS_CONV_ERR_NULL_PTR, old)
    else
      match modbus_float64_bytes regs data_type with
      | none => (MODBUS_CONV_ERR_INVALID_TYPE, old)
      | some bytes => (MODBUS_CONV_OK, fmul64 (bytes_to_u64 bytes) scaling_factor)

/-- C `modbus_convert` (lines 20-83), the generic entry point. -/
def modbus_convert (fmul32 fmul64 : Nat → Rat → Nat)
    (registers : Option (List Nat)) (reg_count : Nat)
    (data_type : modbus_data_type_t) (bit_pos : Nat) (scaling_factor : Rat)
    (result_null : Bool) (old : modbus_value_t) : Int × modbus_value_t :=
  if registers.isNone || result_null then (MODBUS_CONV_ERR_NULL_PTR, old)
  else if reg_count = 0 then (MODBUS_CONV_ERR_INSUFF_REGS, old)
  else if data_type = MODBUS_BIT_BOOLEAN then
    let r := modbus_convert_bit_bool registers bit_pos result_null old.bool_val
    (r.1, { old with bool_val := r.2 })
  else if data_type = MODBUS_INT8_SIGNED then
    let r := modbus_convert_int8_signed registers scaling_factor result_null old.i8
    (r.1, { old with i8 := r.2 })
  else if data_type = MODBUS_INT8_UNSIGNED then
    let r := modbus_convert_int8_unsigned registers scaling_factor result_null old.u8
    (r.1, { old with u8 := r.2 })
  else if data_type = MODBUS_INT16_SIGNED_AB then
    let r := modbus_convert_int16_signed registers false scaling_factor result_null old.i16
    (r.1, { old with i16 := r.2 })
  else if data_type = MODBUS_INT16_SIGNED_BA then
    let r := modbus_convert_int16_signed registers true scaling_factor result_null old.i16
    (r.1, { old with i16 := r.2 })
  else if data_type = MODBUS_INT16_UNSIGNED_AB then
    let r := modbus_convert_int16_unsigned registers false scaling_factor result_null old.u16
    (r.1, { old with u16 := r.2 })
  else if data_type = MODBUS_INT16_UNSIGNED_BA then
    let r := modbus_convert_int16_unsigned registers true scaling_factor result_null old.u16
    (r.1, { old with u16 := r.2 })
  else if tag MODBUS_INT32_SIGNED_ABCD ≤ tag data_type ∧
      tag data_type ≤ tag MODBUS_INT32_UNSIGNED_CDAB then
    modbus_convert_int32 registers data_type scaling_factor result_null old
  else if tag MODBUS_INT64_SIGNED_ABCDEFGH ≤ tag data_type ∧
      tag data_type ≤ tag MODBUS_INT64_UNSIGNED_EFGHABCD then
    modbus_convert_int64 registers data_type scaling_factor result_null old
  else if tag MODBUS_IEEE_FLOAT32_ABCD ≤ tag data_type ∧
      tag data_type ≤ tag MODBUS_IEEE_FLOAT32_BADC then
    let r := modbus_convert_float32 fmul32 registers data_type scaling_factor
      result_null old.f32
    (r.1, { old with f32 := r.2 })
  else if tag MODBUS_IEEE_FLOAT64_ABCDEFGH ≤ tag data_type ∧
      tag data_type ≤ tag MODBUS_IEEE_FLOAT64_EFGHABCD then
    let r := modbus_convert_float64 fmul64 registers data_type scaling_factor
      result_null old.f64
    (r.1, { old with f64 := r.2 })
  else (MODBUS_CONV_ERR_INVALID_TYPE, old)

/-! ## Specification-side models

These definitions follow the specification's words (not the C code) and are
compared against the code-derived definitions above. -/

/-- A concrete result slot used to instantiate closed witness statements. -/
def zero_value : modbus_value_t :=
  { bool_val := false, i8 := 0, u8 := 0, i16 := 0, u16 := 0,
    i32 := 0, u32 := 0, i64 := 0, u64 := 0, f32 := 0, f64 := 0 }

/-- Spec §4.3: the signed 8-bit raw value "reinterprets values > 127 as
negative (two's-complement over 8 bits)" applied to the low byte. -/
def spec_int8_signed_raw (n : Nat) : Int :=
  if 127 < n then (n : Int) - 256 else (n : Int)

/-- The eight 64-bit reordering patterns of spec §4.6. -/
inductive word64_pattern where
  | ABCDEFGH
  | HGFEDCBA
  | BADCFEHG
  | CDABGHEF
  | DCBAHGFE
  | GHEFCDAB
  | FEHGBADC
  | EFGHABCD
deriving DecidableEq, Repr

/-- Spec §4.6 table, column "Word order applied": source word index for each
destination word slot (0-based; the table's "(2,1,4,3)" is `[1,0,3,2]`,
"(3,4,1,2)" is `[2,3,0,1]`). -/
def pattern_word_order : word64_pattern → List Nat
  | .ABCDEFGH => [0, 1, 2, 3]
  | .HGFEDCBA => [3, 2, 1, 0]
  | .BADCFEHG => [0, 1, 2, 3]
  | .CDABGHEF => [1, 0, 3, 2]
  | .DCBAHGFE => [3, 2, 1, 0]
  | .GHEFCDAB => [3, 2, 1, 0]
  | .FEHGBADC => [2, 3, 0, 1]
  | .EFGHABCD => [2, 3, 0, 1]

/-- Spec §4.6 table, column "Per-word byte swap". -/
def pattern_word_swap : word64_pattern → Bool
  | .BADCFEHG => true
  | .DCBAHGFE => true
  | .EFGHABCD => true
  | _ => false

/-- Spec §4.6 table, column "Extra full-sequence reversal". -/
def pattern_full_reverse : word64_pattern → Bool
  | .HGFEDCBA => true
  | .DCBAHGFE => true
  | .GHEFCDAB => true
  | .FEHGBADC => true
  | .EFGHABCD => true
  | _ => false

/-- Big-endian serialization of one selected word into 2 bytes, with the
optional per-word byte swap of spec §4.6. -/
def spec_word_bytes (swapped : Bool) (w : Nat) : List Nat :=
  if swapped then [w % 256, w / 256 % 256] else [w / 256 % 256, w % 256]

/-- Spec §4.6 raw-value recipe: select which source word supplies each
destination word slot, optionally swap each selected word's internal bytes,
serialize the 4 selected words big-endian into 8 bytes, optionally reverse
the entire 8-byte sequence, and assemble the bytes most-significant-byte-first
into an unsigned 64-bit value. -/
def int64_raw_spec (p : word64_pattern) (r0 r1 r2 r3 : Nat) : Nat :=
  let selected := (pattern_word_order p).map (fun i => [r0, r1, r2, r3].getD i 0)
  let bytes := (selected.map (spec_word_bytes (pattern_word_swap p))).flatten
  let final := if pattern_full_reverse p then bytes.reverse else bytes
  final.foldl (fun acc b => acc * 256 + b) 0

/-- The 64-bit reordering pattern named by each 64-bit integer data-type tag
(spec §4.6: the eight patterns, shared by the signed and unsigned tags). -/
def pattern_of_int64_tag : modbus_data_type_t → Option word64_pattern
  | MODBUS_INT64_SIGNED_ABCDEFGH | MODBUS_INT64_UNSIGNED_ABCDEFGH => some .ABCDEFGH
  | MODBUS_INT64_SIGNED_HGFEDCBA | MODBUS_INT64_UNSIGNED_HGFEDCBA => some .HGFEDCBA
  | MODBUS_INT64_SIGNED_BADCFEHG | MODBUS_INT64_UNSIGNED_BADCFEHG => some .BADCFEHG
  | MODBUS_INT64_SIGNED_CDABGHEF | MODBUS_INT64_UNSIGNED_CDABGHEF => some .CDABGHEF
  | MODBUS_INT64_SIGNED_DCBAHGFE | MODBUS_INT64_UNSIGNED_DCBAHGFE => some .DCBAHGFE
  | MODBUS_INT64_SIGNED_GHEFCDAB | MODBUS_INT64_UNSIGNED_GHEFCDAB => some .GHEFCDAB
  | MODBUS_INT64_SIGNED_FEHGBADC | MODBUS_INT64_UNSIGNED_FEHGBADC => some .FEHGBADC
  | MODBUS_INT64_SIGNED_EFGHABCD | MODBUS_INT64_UNSIGNED_EFGHABCD => some .EFGHABCD
  | _ => none

/-- Spec §8 round-trip scenario: encode a binary32 bit pattern into 2
big-endian 16-bit register words (high word first). -/
def float32_bits_to_regs (bits : Nat) : List Nat :=
  [bits >>> 16, bits &&& 0xFFFF]

/-! ## Arithmetic characterizations of the bit-level helpers -/

theorem and_255_eq_mod (x : Nat) : x &&& 0xFF = x % 256 := by
  simpa using Nat.and_pow_two_sub_one_eq_mod x 8

theorem and_65535_eq_mod (x : Nat) : x &&& 0xFFFF = x % 65536 := by
  simpa using Nat.and_pow_two_sub_one_eq_mod x 16

theorem shiftRight8_eq (x : Nat) : x >>> 8 = x / 256 := by
  simpa using Nat.shiftRight_eq_div_pow x 8

theorem shiftRight16_eq (x : Nat) : x >>> 16 = x / 65536 := by
  simpa using Nat.shiftRight_eq_div_pow x 16

theorem hi_byte_eq (r : Nat) : (r >>> 8) &&& 0xFF = r / 256 % 256 := by
  rw [shiftRight8_eq, and_255_eq_mod]

theorem lo_byte_eq (r : Nat) : r &&& 0xFF = r % 256 := and_255_eq_mod r

theorem swap_bytes_16_eq (w : Nat) :
    swap_bytes_16 w = w % 256 * 256 + w / 256 % 256 := by
  unfold swap_bytes_16
  rw [and_255_eq_mod, shiftRight8_eq, and_255_eq_mod, Nat.shiftLeft_eq,
    Nat.mul_comm (w % 256) (2 ^ 8)]
  rw [← Nat.mul_add_lt_is_or (lt_of_lt_of_le (Nat.mod_lt _ (by norm_num)) (by norm_num))
    (w % 256)]

theorem swap_hi_byte (w : Nat) : (swap_bytes_16 w >>> 8) &&& 0xFF = w % 256 := by
  rw [hi_byte_eq, swap_bytes_16_eq]
  have h1 : w % 256 < 256 := Nat.mod_lt _ (by norm_num)
  have h2 : w / 256 % 256 < 256 := Nat.mod_lt _ (by norm_num)
  revert h1 h2
  generalize w % 256 = a
  generalize w / 256 % 256 = b
  intro h1 h2
  omega

theorem swap_lo_byte (w : Nat) : swap_bytes_16 w &&& 0xFF = w / 256 % 256 := by
  rw [lo_byte_eq, swap_bytes_16_eq]
  have h1 : w % 256 < 256 := Nat.mod_lt _ (by norm_num)
  have h2 : w / 256 % 256 < 256 := Nat.mod_lt _ (by norm_num)
  revert h1 h2
  generalize w % 256 = a
  generalize w / 256 % 256 = b
  intro h1 h2
  omega

theorem lor_eq_add_of_lt (a b k : Nat) (hb : b < 2 ^ k) :
    (a <<< k) ||| b = a * 2 ^ k + b := by
  rw [Nat.shiftLeft_eq, Nat.mul_comm a (2 ^ k)]
  exact (Nat.mul_add_lt_is_or hb a).symm

theorem bytes_to_u32_eq (b0 b1 b2 b3 : Nat) (h0 : b0 < 256) (h1 : b1 < 256)
    (h2 : b2 < 256) (h3 : b3 < 256) :
    bytes_to_u32 [b0, b1, b2, b3] = ((b0 * 256 + b1) * 256 + b2) * 256 + b3 := by
  have p8 : (2 : Nat) ^ 8 = 256 := by norm_num
  have p16 : (2 : Nat) ^ 16 = 65536 := by norm_num
  have p24 : (2 : Nat) ^ 24 = 16777216 := by norm_num
  have e0 : regIdx [b0, b1, b2, b3] 0 = b0 := rfl
  have e1 : regIdx [b0, b1, b2, b3] 1 = b1 := rfl
  have e2 : regIdx [b0, b1, b2, b3] 2 = b2 := rfl
  have e3 : regIdx [b0, b1, b2, b3] 3 = b3 := rfl
  simp only [bytes_to_u32, e0, e1, e2, e3]
  rw [Nat.or_assoc, Nat.or_assoc]
  rw [lor_eq_add_of_lt b2 b3 8 (by omega)]
  rw [lor_eq_add_of_lt b1 (b2 * 2 ^ 8 + b3) 16 (by rw [p8, p16]; omega)]
  rw [lor_eq_add_of_lt b0 (b1 * 2 ^ 16 + (b2 * 2 ^ 8 + b3)) 24 (by rw [p8, p16, p24]; omega)]
  rw [p8, p16, p24]
  ring

theorem bytes_to_u64_eq (b0 b1 b2 b3 b4 b5 b6 b7 : Nat) (h0 : b0 < 256)
    (h1 : b1 < 256) (h2 : b2 < 256) (h3 : b3 < 256) (h4 : b4 < 256)
    (h5 : b5 < 256) (h6 : b6 < 256) (h7 : b7 < 256) :
    bytes_to_u64 [b0, b1, b2, b3, b4, b5, b6, b7] =
      ((((((b0 * 256 + b1) * 256 + b2) * 256 + b3) * 256 + b4) * 256 + b5) * 256 + b6)
        * 256 + b7 := by
  have p8 : (2 : Nat) ^ 8 = 256 := by norm_num
  have p16 : (2 : Nat) ^ 16 = 65536 := by norm_num
  have p24 : (2 : Nat) ^ 24 = 16777216 := by norm_num
  have p32 : (2 : Nat) ^ 32 = 4294967296 := by norm_num
  have p40 : (2 : Nat) ^ 40 = 1099511627776 := by norm_num
  have p48 : (2 : Nat) ^ 48 = 281474976710656 := by norm_num
  have p56 : (2 : Nat) ^ 56 = 72057594037927936 := by norm_num
  have e0 : regIdx [b0, b1, b2, b3, b4, b5, b6, b7] 0 = b0 := rfl
  have e1 : regIdx [b0, b1, b2, b3, b4, b5, b6, b7] 1 = b1 := rfl
  have e2 : regIdx [b0, b1, b2, b3, b4, b5, b6, b7] 2 = b2 := rfl
  have e3 : regIdx [b0, b1, b2, b3, b4, b5, b6, b7] 3 = b3 := rfl
  have e4 : regIdx [b0, b1, b2, b3, b4, b5, b6, b7] 4 = b4 := rfl
  have e5 : regIdx [b0, b1, b2, b3, b4, b5, b6, b7] 5 = b5 := rfl
  have e6 : regIdx [b0, b1, b2, b3, b4, b5, b6, b7] 6 = b6 := rfl
  have e7 : regIdx [b0, b1, b2, b3, b4, b5, b6, b7] 7 = b7 := rfl
  simp only [bytes_to_u64, e0, e1, e2, e3, e4, e5, e6, e7]
  rw [Nat.or_assoc, Nat.or_assoc, Nat.or_assoc, Nat.or_assoc, Nat.or_assoc,
    Nat.or_assoc]
  rw [lor_eq_add_of_lt b6 b7 8 (by omega)]
  rw [lor_eq_add_of_lt b5 (b6 * 2 ^ 8 + b7) 16 (by rw [p8, p16]; omega)]
  rw [lor_eq_add_of_lt b4 (b5 * 2 ^ 16 + (b6 * 2 ^ 8 + b7)) 24
    (by rw [p8, p16, p24]; omega)]
  rw [lor_eq_add_of_lt b3 (b4 * 2 ^ 24 + (b5 * 2 ^ 16 + (b6 * 2 ^ 8 + b7))) 32
    (by rw [p8, p16, p24, p32]; omega)]
  rw [lor_eq_add_of_lt b2
    (b3 * 2 ^ 32 + (b4 * 2 ^ 24 + (b5 * 2 ^ 16 + (b6 * 2 ^ 8 + b7)))) 40
    (by rw [p8, p16, p24, p32, p40]; omega)]
  rw [lor_eq_add_of_lt b1
    (b2 * 2 ^ 40 + (b3 * 2 ^ 32 + (b4 * 2 ^ 24 + (b5 * 2 ^ 16 + (b6 * 2 ^ 8 + b7))))) 48
    (by rw [p8, p16, p24, p32, p40, p48]; omega)]
  rw [lor_eq_add_of_lt b0
    (b1 * 2 ^ 48 +
      (b2 * 2 ^ 40 + (b3 * 2 ^ 32 + (b4 * 2 ^ 24 + (b5 * 2 ^ 16 + (b6 * 2 ^ 8 + b7))))))
    56 (by rw [p8, p16, p24, p32, p40, p48, p56]; omega)]
  rw [p8, p16, p24, p32, p40, p48, p56]
  ring

theorem fp_trunc_natCast (n : Nat) : fp_trunc (n : Rat) = n := by
  simp [fp_trunc]

theorem fp_trunc_intCast (z : Int) : fp_trunc (z : Rat) = z := by
  simp [fp_trunc]

theorem wrapU_natCast (w n : Nat) (h : n < 2 ^ w) : wrapU w (n : Int) = n := by
  unfold wrapU
  rw [Int.emod_eq_of_lt (by positivity) (by exact_mod_cast h)]
  simp

theorem beq_one_eq_decide (a : Nat) : (a == 1) = decide (a = 1) := by
  by_cases h : a = 1 <;> simp [h]

theorem bitval_eq_testBit (r p : Nat) : ((r >>> p) % 2 == 1) = r.testBit p := by
  rw [Nat.testBit_to_div_mod, Nat.shiftRight_eq_div_pow, beq_one_eq_decide]

/-- Helper for C4: the signed 8-bit decoder equals the spec recipe (low byte,
two's-complement reinterpretation over 8 bits, scaling, narrowing). -/
theorem int8_signed_general (r : Nat) (rest : List Nat) (sf : Rat) (old : Int) :
    modbus_convert_int8_signed (some (r :: rest)) sf false old =
      (MODBUS_CONV_OK,
        wrapS 8 (fp_trunc ((spec_int8_signed_raw (r % 256) : Rat) * sf))) := by
  simp [modbus_convert_int8_signed, regIdx, spec_int8_signed_raw, and_255_eq_mod]

/-! ## Claim theorems -/

/-- C8: for every data type tag, bit position and scaling factor, calling the
generic entry point `modbus_convert` with non-null registers and result slot
but a register count of zero fails with `InsufficientRegisters`, leaving the
result slot unchanged. -/
theorem C8_zero_count_insufficient (f g : Nat → Rat → Nat) (regs : List Nat)
    (data_type : modbus_data_type_t) (bit_pos : Nat) (sf : Rat)
    (old : modbus_value_t) :
    modbus_convert f g (some regs) 0 data_type bit_pos sf false old =
      (MODBUS_CONV_ERR_INSUFF_REGS, old) := by
  simp [modbus_convert]

/-- C7: boolean decoding with non-null arguments succeeds whenever
`bit_pos ≤ 15`, returning bit `bit_pos` of the first register word with no
scaling applied, and fails with `InvalidBitPosition` whenever `bit_pos > 15`,
leaving the result slot unchanged. -/
theorem C7_bit_bool_range (r : Nat) (rest : List Nat) (bit_pos : Nat)
    (old : Bool) :
    (bit_pos ≤ 15 →
      modbus_convert_bit_bool (some (r :: rest)) bit_pos false old =
        (MODBUS_CONV_OK, r.testBit bit_pos)) ∧
    (bit_pos > 15 →
      modbus_convert_bit_bool (some (r :: rest)) bit_pos false old =
        (MODBUS_CONV_ERR_INVALID_BIT, old)) := by
  constructor
  · intro h
    have hn : ¬ bit_pos > 15 := by omega
    simp [modbus_convert_bit_bool, hn, regIdx, bitval_eq_testBit]
  · intro h
    simp [modbus_convert_bit_bool, h]

/-- Witness for C7: bit positions 15 and 0 succeed on register `0x8001`
(extracting bits 1 and 1), and bit position 16 fails with
`InvalidBitPosition`. -/
theorem C7_bit_bool_range_witness :
    modbus_convert_bit_bool (some [0x8001]) 15 false false =
      (MODBUS_CONV_OK, true) ∧
    modbus_convert_bit_bool (some [0x8001]) 0 false false =
      (MODBUS_CONV_OK, true) ∧
    modbus_convert_bit_bool (some [0x8001]) 16 false false =
      (MODBUS_CONV_ERR_INVALID_BIT, false) := by
  refine ⟨?_, ?_, ?_⟩
  · exact ((C7_bit_bool_range 0x8001 [] 15 false).1 (by norm_num)).trans (by decide)
  · exact ((C7_bit_bool_range 0x8001 [] 0 false).1 (by norm_num)).trans (by decide)
  · exact (C7_bit_bool_range 0x8001 [] 16 false).2 (by norm_num)

/-- C5: for every 16-bit input word and scaling factor 1.0, unsigned 16-bit
decoding returns exactly the input word under the AB (no-swap) order and
exactly its byte-swapped form under the BA (swap) order. -/
theorem C5_int16_unsigned_identity (w : Nat) (rest : List Nat) (old : Nat)
    (h : w < 65536) :
    modbus_convert_int16_unsigned (some (w :: rest)) false 1 false old =
      (MODBUS_CONV_OK, w) ∧
    modbus_convert_int16_unsigned (some (w :: rest)) true 1 false old =
      (MODBUS_CONV_OK, swap_bytes_16 w) := by
  have p16 : (2 : Nat) ^ 16 = 65536 := by norm_num
  have hs : swap_bytes_16 w < 65536 := by
    rw [swap_bytes_16_eq]
    have h1 : w % 256 < 256 := Nat.mod_lt _ (by norm_num)
    have h2 : w / 256 % 256 < 256 := Nat.mod_lt _ (by norm_num)
    omega
  have hw := wrapU_natCast 16 w (by rw [p16]; exact h)
  have hww := wrapU_natCast 16 (swap_bytes_16 w) (by rw [p16]; exact hs)
  constructor
  · simp [modbus_convert_int16_unsigned, regIdx, fp_trunc_natCast, hw]
  · simp [modbus_convert_int16_unsigned, regIdx, fp_trunc_natCast, hww]

/-- Witness for C5: word `0x1234` decodes to itself under AB and to `0x3412`
under BA at scaling factor 1.0. -/
theorem C5_int16_unsigned_identity_witness :
    modbus_convert_int16_unsigned (some [0x1234]) false 1 false 0 =
      (MODBUS_CONV_OK, 0x1234) ∧
    modbus_convert_int16_unsigned (some [0x1234]) true 1 false 0 =
      (MODBUS_CONV_OK, 0x3412) := by
  have h := C5_int16_unsigned_identity 0x1234 [] 0 (by norm_num)
  exact ⟨h.1, h.2.trans (by decide)⟩

/-- C3: registers `[0x0001, 0x0000]` decoded as unsigned 32-bit CDAB with
scaling factor 2.0 succeed with value 2: CDAB selects the second word first
with bytes kept big-endian, the raw bytes `[00 00 00 01]` assemble to 1, and
scaling by 2.0 then truncating to uint32 gives 2. -/
theorem C3_cdab_scaling :
    modbus_convert_int32 (some [0x0001, 0x0000]) MODBUS_INT32_UNSIGNED_CDAB 2 false
        zero_value = (MODBUS_CONV_OK, { zero_value with u32 := 2 }) ∧
    modbus_int32_bytes [0x0001, 0x0000] MODBUS_INT32_UNSIGNED_CDAB =
      some (regs_to_bytes [0x0000, 0x0001]) ∧
    regs_to_bytes [0x0000, 0x0001] = [0x00, 0x00, 0x00, 0x01] ∧
    bytes_to_u32 [0x00, 0x00, 0x00, 0x01] = 1 := by
  have hb : modbus_int32_bytes [0x0001, 0x0000] MODBUS_INT32_UNSIGNED_CDAB =
      some [0x00, 0x00, 0x00, 0x01] := by decide
  have hu : bytes_to_u32 [0x00, 0x00, 0x00, 0x01] = 1 := by decide
  have hval : wrapU 32 (fp_trunc (2 : Rat)) = 2 := by
    have h1 : (2 : Rat) = ((2 : Nat) : Rat) := by norm_num
    rw [h1, fp_trunc_natCast, wrapU_natCast 32 2 (by norm_num)]
  refine ⟨?_, by decide, by decide, hu⟩
  simp [modbus_convert_int32, hb, hu, tag, hval]

/-- C4: the signed 8-bit decoder takes the low byte of the first register
word, reinterprets values above 127 as negative two's-complement, scales, and
narrows back to 8 bits; in particular registers `[0x00FF]` at scaling factor
1.0 decode to -1. -/
theorem C4_int8_signed (r : Nat) (rest : List Nat) (sf : Rat) (o p : Int) :
    modbus_convert_int8_signed (some (r :: rest)) sf false o =
      (MODBUS_CONV_OK,
        wrapS 8 (fp_trunc ((spec_int8_signed_raw (r % 256) : Rat) * sf))) ∧
    modbus_convert_int8_signed (some [0x00FF]) 1 false p =
      (MODBUS_CONV_OK, -1) := by
  refine ⟨int8_signed_general r rest sf o, ?_⟩
  have h2 : wrapS 8 (fp_trunc ((spec_int8_signed_raw (0x00FF % 256) : Rat) * 1)) = -1 := by
    norm_num [spec_int8_signed_raw, fp_trunc, wrapS]
  exact (int8_signed_general 0x00FF [] 1 p).trans (by rw [h2])

/-- C1 (refuted): at registers `[0x1234, 0x5678]` the code's DCBA reordering
produces the byte sequence `[34 12 78 56]` (value `0x34127856`), identical to
its BADC reordering, not the full reversal `[78 56 34 12]` of the ABCD byte
sequence; ABCD decoding of the byte-reversed register sequence
`[0x7856, 0x3412]` gives `0x78563412` instead. -/
theorem C1_dcba_not_full_reversal :
    modbus_convert_int32 (some [0x1234, 0x5678]) MODBUS_INT32_UNSIGNED_DCBA 1 false
        zero_value = (MODBUS_CONV_OK, { zero_value with u32 := 0x34127856 }) ∧
    modbus_int32_bytes [0x1234, 0x5678] MODBUS_INT32_UNSIGNED_DCBA =
      some [0x34, 0x12, 0x78, 0x56] ∧
    bytes_reverse (regs_to_bytes [0x1234, 0x5678]) = [0x78, 0x56, 0x34, 0x12] ∧
    modbus_int32_bytes [0x1234, 0x5678] MODBUS_INT32_UNSIGNED_DCBA ≠
      some (bytes_reverse (regs_to_bytes [0x1234, 0x5678])) ∧
    modbus_int32_bytes [0x1234, 0x5678] MODBUS_INT32_UNSIGNED_DCBA =
      modbus_int32_bytes [0x1234, 0x5678] MODBUS_INT32_UNSIGNED_BADC ∧
    modbus_convert_int32 (some [0x7856, 0x3412]) MODBUS_INT32_UNSIGNED_ABCD 1 false
        zero_value = (MODBUS_CONV_OK, { zero_value with u32 := 0x78563412 }) := by
  have hb1 : modbus_int32_bytes [0x1234, 0x5678] MODBUS_INT32_UNSIGNED_DCBA =
      some [0x34, 0x12, 0x78, 0x56] := by decide
  have hu1 : bytes_to_u32 [0x34, 0x12, 0x78, 0x56] = 0x34127856 := by decide
  have hv1 : wrapU 32 (fp_trunc (0x34127856 : Rat)) = 0x34127856 := by
    have h1 : (0x34127856 : Rat) = ((0x34127856 : Nat) : Rat) := by norm_num
    rw [h1, fp_trunc_natCast, wrapU_natCast 32 0x34127856 (by norm_num)]
  have hb2 : modbus_int32_bytes [0x7856, 0x3412] MODBUS_INT32_UNSIGNED_ABCD =
      some [0x78, 0x56, 0x34, 0x12] := by decide
  have hu2 : bytes_to_u32 [0x78, 0x56, 0x34, 0x12] = 0x78563412 := by decide
  have hv2 : wrapU 32 (fp_trunc (0x78563412 : Rat)) = 0x78563412 := by
    have h1 : (0x78563412 : Rat) = ((0x78563412 : Nat) : Rat) := by norm_num
    rw [h1, fp_trunc_natCast, wrapU_natCast 32 0x78563412 (by norm_num)]
  refine ⟨?_, hb1, by decide, by decide, by decide, ?_⟩
  · simp [modbus_convert_int32, hb1, hu1, tag, hv1]
  · simp [modbus_convert_int32, hb2, hu2, tag, hv2]

/-- Helper for C6: big-endian reassembly of a 32-bit value split into its two
16-bit words. -/
theorem u32_roundtrip (bits : Nat) (h : bits < 4294967296) :
    bytes_to_u32 (regs_to_bytes [bits / 65536, bits % 65536]) = bits := by
  simp only [regs_to_bytes, shiftRight8_eq, lo_byte_eq]
  rw [bytes_to_u32_eq _ _ _ _ (Nat.mod_lt _ (by norm_num)) (Nat.mod_lt _ (by norm_num))
    (Nat.mod_lt _ (by norm_num)) (Nat.mod_lt _ (by norm_num))]
  omega

/-- C6: for every binary32 bit pattern and every float-multiplication
semantics under which scaling by 1.0 is the identity on bit patterns (the
IEEE-754 behaviour for every numeric binary32 value), encoding the pattern
into 2 big-endian 16-bit words and decoding with float32 ABCD at scaling
factor 1.0 returns the original bit pattern exactly. -/
theorem C6_float32_roundtrip (bits old : Nat) (f : Nat → Rat → Nat)
    (hbits : bits < 4294967296) (hf : ∀ b, f b 1 = b) :
    modbus_convert_float32 f (some (float32_bits_to_regs bits))
      MODBUS_IEEE_FLOAT32_ABCD 1 false old = (MODBUS_CONV_OK, bits) := by
  simp only [float32_bits_to_regs, shiftRight16_eq, and_65535_eq_mod]
  simp only [modbus_convert_float32, modbus_float32_bytes, regIdx, List.getD_cons_zero,
    List.getD_cons_succ, Bool.false_eq_true, if_false]
  rw [u32_roundtrip bits hbits, hf bits]

/-- Witness for C6: the binary32 pattern of 1.0 (`0x3F800000`) encodes to the
spec's registers `[0x3F80, 0x0000]` and round-trips exactly. -/
theorem C6_float32_roundtrip_witness :
    modbus_convert_float32 (fun b _ => b) (some (float32_bits_to_regs 0x3F800000))
      MODBUS_IEEE_FLOAT32_ABCD 1 false 0 = (MODBUS_CONV_OK, 0x3F800000) ∧
    float32_bits_to_regs 0x3F800000 = [0x3F80, 0x0000] :=
  ⟨C6_float32_roundtrip 0x3F800000 0 (fun b _ => b) (by norm_num) (fun _ => rfl),
    by decide⟩

/-- C10: for every register input (null included), every scaling factor and
every float-multiplication semantics, the GHEFCDAB tags and the HGFEDCBA tags
select byte-for-byte the same reordering, so signed 64-bit, unsigned 64-bit
and float64 decoding produce identical results under the two patterns. -/
theorem C10_ghefcdab_duplicates_hgfedcba (registers : Option (List Nat))
    (sf : Rat) (rn : Bool) (old : modbus_value_t) (oldf : Nat)
    (g : Nat → Rat → Nat) :
    modbus_convert_int64 registers MODBUS_INT64_SIGNED_GHEFCDAB sf rn old =
      modbus_convert_int64 registers MODBUS_INT64_SIGNED_HGFEDCBA sf rn old ∧
    modbus_convert_int64 registers MODBUS_INT64_UNSIGNED_GHEFCDAB sf rn old =
      modbus_convert_int64 registers MODBUS_INT64_UNSIGNED_HGFEDCBA sf rn old ∧
    modbus_convert_float64 g registers MODBUS_IEEE_FLOAT64_GHEFCDAB sf rn oldf =
      modbus_convert_float64 g registers MODBUS_IEEE_FLOAT64_HGFEDCBA sf rn oldf := by
  obtain (_ | regs) := registers <;>
    refine ⟨?_, ?_, ?_⟩ <;>
    simp [modbus_convert_int64, modbus_convert_float64, modbus_int64_bytes,
      modbus_float64_bytes, tag]

/-! ## Error-path frame lemmas (for C9) -/

theorem frame_bit_bool (registers : Option (List Nat)) (bp : Nat) (rn : Bool)
    (b : Bool) (h : (modbus_convert_bit_bool registers bp rn b).1 ≠ MODBUS_CONV_OK) :
    (modbus_convert_bit_bool registers bp rn b).2 = b := by
  obtain (_ | regs) := registers
  · rfl
  · cases rn
    · by_cases hbp : bp > 15
      · simp [modbus_convert_bit_bool, hbp]
      · exfalso
        apply h
        simp [modbus_convert_bit_bool, hbp]
    · simp [modbus_convert_bit_bool]

theorem frame_int8_signed (registers : Option (List Nat)) (sf : Rat) (rn : Bool)
    (old : Int) (h : (modbus_convert_int8_signed registers sf rn old).1 ≠ MODBUS_CONV_OK) :
    (modbus_convert_int8_signed registers sf rn old).2 = old := by
  obtain (_ | regs) := registers
  · rfl
  · cases rn
    · exfalso
      apply h
      simp [modbus_convert_int8_signed]
    · simp [modbus_convert_int8_signed]

theorem frame_int8_unsigned (registers : Option (List Nat)) (sf : Rat) (rn : Bool)
    (old : Nat) (h : (modbus_convert_int8_unsigned registers sf rn old).1 ≠ MODBUS_CONV_OK) :
    (modbus_convert_int8_unsigned registers sf rn old).2 = old := by
  obtain (_ | regs) := registers
  · rfl
  · cases rn
    · exfalso
      apply h
      simp [modbus_convert_int8_unsigned]
    · simp [modbus_convert_int8_unsigned]

theorem frame_int16_signed (registers : Option (List Nat)) (sw : Bool) (sf : Rat)
    (rn : Bool) (old : Int)
    (h : (modbus_convert_int16_signed registers sw sf rn old).1 ≠ MODBUS_CONV_OK) :
    (modbus_convert_int16_signed registers sw sf rn old).2 = old := by
  obtain (_ | regs) := registers
  · rfl
  · cases rn
    · exfalso
      apply h
      simp [modbus_convert_int16_signed]
    · simp [modbus_convert_int16_signed]

theorem frame_int16_unsigned (registers : Option (List Nat)) (sw : Bool) (sf : Rat)
    (rn : Bool) (old : Nat)
    (h : (modbus_convert_int16_unsigned registers sw sf rn old).1 ≠ MODBUS_CONV_OK) :
    (modbus_convert_int16_unsigned registers sw sf rn old).2 = old := by
  obtain (_ | regs) := registers
  · rfl
  · cases rn
    · exfalso
      apply h
      simp [modbus_convert_int16_unsigned]
    · simp [modbus_convert_int16_unsigned]

theorem frame_int32 (registers : Option (List Nat)) (dt : modbus_data_type_t)
    (sf : Rat) (rn : Bool) (old : modbus_value_t)
    (h : (modbus_convert_int32 registers dt sf rn old).1 ≠ MODBUS_CONV_OK) :
    (modbus_convert_int32 registers dt sf rn old).2 = old := by
  obtain (_ | regs) := registers
  · rfl
  · cases rn
    · cases hb : modbus_int32_bytes regs dt
      · simp [modbus_convert_int32, hb]
      · exfalso
        apply h
        simp only [modbus_convert_int32, hb, Bool.false_eq_true, if_false]
        split_ifs <;> rfl
    · simp [modbus_convert_int32]

theorem frame_int64 (registers : Option (List Nat)) (dt : modbus_data_type_t)
    (sf : Rat) (rn : Bool) (old : modbus_value_t)
    (h : (modbus_convert_int64 registers dt sf rn old).1 ≠ MODBUS_CONV_OK) :
    (modbus_convert_int64 registers dt sf rn old).2 = old := by
  obtain (_ | regs) := registers
  · rfl
  · cases rn
    · cases hb : modbus_int64_bytes regs dt
      · simp [modbus_convert_int64, hb]
      · exfalso
        apply h
        simp only [modbus_convert_int64, hb, Bool.false_eq_true, if_false]
        split_ifs <;> rfl
    · simp [modbus_convert_int64]

theorem frame_float32 (f : Nat → Rat → Nat) (registers : Option (List Nat))
    (dt : modbus_data_type_t) (sf : Rat) (rn : Bool) (old : Nat)
    (h : (modbus_convert_float32 f registers dt sf rn old).1 ≠ MODBUS_CONV_OK) :
    (modbus_convert_float32 f registers dt sf rn old).2 = old := by
  obtain (_ | regs) := registers
  · rfl
  · cases rn
    · cases hb : modbus_float32_bytes regs dt
      · simp [modbus_convert_float32, hb]
      · exfalso
        apply h
        simp [modbus_convert_float32, hb]
    · simp [modbus_convert_float32]

theorem frame_float64 (g : Nat → Rat → Nat) (registers : Option (List Nat))
    (dt : modbus_data_type_t) (sf : Rat) (rn : Bool) (old : Nat)
    (h : (modbus_convert_float64 g registers dt sf rn old).1 ≠ MODBUS_CONV_OK) :
    (modbus_convert_float64 g registers dt sf rn old).2 = old := by
  obtain (_ | regs) := registers
  · rfl
  · cases rn
    · cases hb : modbus_float64_bytes regs dt
      · simp [modbus_convert_float64, hb]
      · exfalso
        apply h
        simp [modbus_convert_float64, hb]
    · simp [modbus_convert_float64]

theorem frame_convert (f g : Nat → Rat → Nat) (registers : Option (List Nat))
    (reg_count : Nat) (dt : modbus_data_type_t) (bp : Nat) (sf : Rat) (rn : Bool)
    (old : modbus_value_t)
    (h : (modbus_convert f g registers reg_count dt bp sf rn old).1 ≠ MODBUS_CONV_OK) :
    (modbus_convert f g registers reg_count dt bp sf rn old).2 = old := by
  obtain (_ | regs) := registers
  · rfl
  · cases rn
    · by_cases hc : reg_count = 0
      · subst hc
        rfl
      · cases dt <;>
          simp only [modbus_convert, Option.isNone_some, Bool.or_false,
            Bool.false_eq_true, if_false, if_neg hc, tag, reduceCtorEq,
            reduceIte] at h ⊢ <;>
          (try norm_num at h ⊢) <;>
          first
            | rfl
            | (rw [frame_bit_bool _ _ _ _ h])
            | (rw [frame_int8_signed _ _ _ _ h])
            | (rw [frame_int8_unsigned _ _ _ _ h])
            | (rw [frame_int16_signed _ _ _ _ _ h])
            | (rw [frame_int16_unsigned _ _ _ _ _ h])
            | (exact frame_int32 _ _ _ _ _ h)
            | (exact frame_int64 _ _ _ _ _ h)
            | (rw [frame_float32 _ _ _ _ _ _ h])
            | (rw [frame_float64 _ _ _ _ _ _ h])
    · rfl

/-- C9: atomicity on error — whenever the generic entry point or any
specialized decoder returns a nonzero status code, the caller's result slot
is left unchanged. -/
theorem C9_error_atomicity (f g : Nat → Rat → Nat) (registers : Option (List Nat))
    (reg_count : Nat) (dt : modbus_data_type_t) (bp : Nat) (sf : Rat)
    (sw rn : Bool) (old : modbus_value_t) (b : Bool) (i : Int) (n : Nat) :
    ((modbus_convert f g registers reg_count dt bp sf rn old).1 ≠ MODBUS_CONV_OK →
      (modbus_convert f g registers reg_count dt bp sf rn old).2 = old) ∧
    ((modbus_convert_bit_bool registers bp rn b).1 ≠ MODBUS_CONV_OK →
      (modbus_convert_bit_bool registers bp rn b).2 = b) ∧
    ((modbus_convert_int8_signed registers sf rn i).1 ≠ MODBUS_CONV_OK →
      (modbus_convert_int8_signed registers sf rn i).2 = i) ∧
    ((modbus_convert_int8_unsigned registers sf rn n).1 ≠ MODBUS_CONV_OK →
      (modbus_convert_int8_unsigned registers sf rn n).2 = n) ∧
    ((modbus_convert_int16_signed registers sw sf rn i).1 ≠ MODBUS_CONV_OK →
      (modbus_convert_int16_signed registers sw sf rn i).2 = i) ∧
    ((modbus_convert_int16_unsigned registers sw sf rn n).1 ≠ MODBUS_CONV_OK →
      (modbus_convert_int16_unsigned registers sw sf rn n).2 = n) ∧
    ((modbus_convert_int32 registers dt sf rn old).1 ≠ MODBUS_CONV_OK →
      (modbus_convert_int32 registers dt sf rn old).2 = old) ∧
    ((modbus_convert_int64 registers dt sf rn old).1 ≠ MODBUS_CONV_OK →
      (modbus_convert_int64 registers dt sf rn old).2 = old) ∧
    ((modbus_convert_float32 f registers dt sf rn n).1 ≠ MODBUS_CONV_OK →
      (modbus_convert_float32 f registers dt sf rn n).2 = n) ∧
    ((modbus_convert_float64 g registers dt sf rn n).1 ≠ MODBUS_CONV_OK →
      (modbus_convert_float64 g registers dt sf rn n).2 = n) :=
  ⟨frame_convert f g registers reg_count dt bp sf rn old,
    frame_bit_bool registers bp rn b,
    frame_int8_signed registers sf rn i,
    frame_int8_unsigned registers sf rn n,
    frame_int16_signed registers sw sf rn i,
    frame_int16_unsigned registers sw sf rn n,
    frame_int32 registers dt sf rn old,
    frame_int64 registers dt sf rn old,
    frame_float32 f registers dt sf rn n,
    frame_float64 g registers dt sf rn n⟩

/-- Witness for C9: a null register pointer, an invalid bit position and an
invalid data-type tag each fail while leaving the concrete slot contents
untouched. -/
theorem C9_error_atomicity_witness :
    (modbus_convert (fun a _ => a) (fun a _ => a) none 1 MODBUS_BIT_BOOLEAN 0 1 false
      zero_value).2 = zero_value ∧
    (modbus_convert_bit_bool (some [7]) 16 false true).2 = true ∧
    (modbus_convert_int32 (some [1, 2]) MODBUS_BIT_BOOLEAN 1 false zero_value).2 =
      zero_value := by
  refine ⟨?_, ?_, ?_⟩
  · exact (C9_error_atomicity (fun a _ => a) (fun a _ => a) none 1 MODBUS_BIT_BOOLEAN
      0 1 false false zero_value false 0 0).1 (by decide)
  · exact (C9_error_atomicity (fun a _ => a) (fun a _ => a) (some [7]) 1
      MODBUS_BIT_BOOLEAN 16 1 false false zero_value true 0 0).2.1 (by decide)
  · exact (C9_error_atomicity (fun a _ => a) (fun a _ => a) (some [1, 2]) 1
      MODBUS_BIT_BOOLEAN 0 1 false false zero_value false 0 0).2.2.2.2.2.2.1 (by decide)

/-! ## C2: the 64-bit reordering table, pattern by pattern -/

set_option maxRecDepth 100000 in
theorem int64_code_ABCDEFGH (r0 r1 r2 r3 : Nat) :
    bytes_to_u64 (regs_to_bytes [r0, r1, r2, r3]) =
      int64_raw_spec .ABCDEFGH r0 r1 r2 r3 := by
  have m : ∀ x : Nat, x % 256 < 256 := fun x => Nat.mod_lt _ (by norm_num)
  have hspec : int64_raw_spec .ABCDEFGH r0 r1 r2 r3 =
      (((((((0 * 256 + r0 / 256 % 256) * 256 + r0 % 256) * 256 + r1 / 256 % 256) * 256 + r1 % 256) * 256 + r2 / 256 % 256) * 256 + r2 % 256) * 256 + r3 / 256 % 256) * 256 + r3 % 256 := rfl
  have hcode : regs_to_bytes [r0, r1, r2, r3] =
      [(r0 >>> 8) &&& 0xFF,
       r0 &&& 0xFF,
       (r1 >>> 8) &&& 0xFF,
       r1 &&& 0xFF,
       (r2 >>> 8) &&& 0xFF,
       r2 &&& 0xFF,
       (r3 >>> 8) &&& 0xFF,
       r3 &&& 0xFF] := rfl
  rw [hcode]
  simp only [hi_byte_eq, lo_byte_eq, shiftRight8_eq]
  rw [bytes_to_u64_eq _ _ _ _ _ _ _ _ (m _) (m _) (m _) (m _) (m _) (m _) (m _) (m _)]
  rw [hspec]
  ring

set_option maxRecDepth 100000 in
theorem int64_code_HGFEDCBA (r0 r1 r2 r3 : Nat) :
    bytes_to_u64 (bytes_reverse (regs_to_bytes [r3, r2, r1, r0])) =
      int64_raw_spec .HGFEDCBA r0 r1 r2 r3 := by
  have m : ∀ x : Nat, x % 256 < 256 := fun x => Nat.mod_lt _ (by norm_num)
  have hspec : int64_raw_spec .HGFEDCBA r0 r1 r2 r3 =
      (((((((0 * 256 + r0 % 256) * 256 + r0 / 256 % 256) * 256 + r1 % 256) * 256 + r1 / 256 % 256) * 256 + r2 % 256) * 256 + r2 / 256 % 256) * 256 + r3 % 256) * 256 + r3 / 256 % 256 := rfl
  have hcode : bytes_reverse (regs_to_bytes [r3, r2, r1, r0]) =
      [r0 &&& 0xFF,
       (r0 >>> 8) &&& 0xFF,
       r1 &&& 0xFF,
       (r1 >>> 8) &&& 0xFF,
       r2 &&& 0xFF,
       (r2 >>> 8) &&& 0xFF,
       r3 &&& 0xFF,
       (r3 >>> 8) &&& 0xFF] := rfl
  rw [hcode]
  simp only [hi_byte_eq, lo_byte_eq, shiftRight8_eq]
  rw [bytes_to_u64_eq _ _ _ _ _ _ _ _ (m _) (m _) (m _) (m _) (m _) (m _) (m _) (m _)]
  rw [hspec]
  ring

set_option maxRecDepth 100000 in
theorem int64_code_BADCFEHG (r0 r1 r2 r3 : Nat) :
    bytes_to_u64 (regs_to_bytes [swap_bytes_16 r0, swap_bytes_16 r1, swap_bytes_16 r2, swap_bytes_16 r3]) =
      int64_raw_spec .BADCFEHG r0 r1 r2 r3 := by
  have m : ∀ x : Nat, x % 256 < 256 := fun x => Nat.mod_lt _ (by norm_num)
  have hspec : int64_raw_spec .BADCFEHG r0 r1 r2 r3 =
      (((((((0 * 256 + r0 % 256) * 256 + r0 / 256 % 256) * 256 + r1 % 256) * 256 + r1 / 256 % 256) * 256 + r2 % 256) * 256 + r2 / 256 % 256) * 256 + r3 % 256) * 256 + r3 / 256 % 256 := rfl
  have hcode : regs_to_bytes [swap_bytes_16 r0, swap_bytes_16 r1, swap_bytes_16 r2, swap_bytes_16 r3] =
      [(swap_bytes_16 r0 >>> 8) &&& 0xFF,
       swap_bytes_16 r0 &&& 0xFF,
       (swap_bytes_16 r1 >>> 8) &&& 0xFF,
       swap_bytes_16 r1 &&& 0xFF,
       (swap_bytes_16 r2 >>> 8) &&& 0xFF,
       swap_bytes_16 r2 &&& 0xFF,
       (swap_bytes_16 r3 >>> 8) &&& 0xFF,
       swap_bytes_16 r3 &&& 0xFF] := rfl
  rw [hcode]
  simp only [swap_hi_byte, swap_lo_byte]
  rw [bytes_to_u64_eq _ _ _ _ _ _ _ _ (m _) (m _) (m _) (m _) (m _) (m _) (m _) (m _)]
  rw [hspec]
  ring

set_option maxRecDepth 100000 in
theorem int64_code_CDABGHEF (r0 r1 r2 r3 : Nat) :
    bytes_to_u64 (regs_to_bytes [r1, r0, r3, r2]) =
      int64_raw_spec .CDABGHEF r0 r1 r2 r3 := by
  have m : ∀ x : Nat, x % 256 < 256 := fun x => Nat.mod_lt _ (by norm_num)
  have hspec : int64_raw_spec .CDABGHEF r0 r1 r2 r3 =
      (((((((0 * 256 + r1 / 256 % 256) * 256 + r1 % 256) * 256 + r0 / 256 % 256) * 256 + r0 % 256) * 256 + r3 / 256 % 256) * 256 + r3 % 256) * 256 + r2 / 256 % 256) * 256 + r2 % 256 := rfl
  have hcode : regs_to_bytes [r1, r0, r3, r2] =
      [(r1 >>> 8) &&& 0xFF,
       r1 &&& 0xFF,
       (r0 >>> 8) &&& 0xFF,
       r0 &&& 0xFF,
       (r3 >>> 8) &&& 0xFF,
       r3 &&& 0xFF,
       (r2 >>> 8) &&& 0xFF,
       r2 &&& 0xFF] := rfl
  rw [hcode]
  simp only [hi_byte_eq, lo_byte_eq, shiftRight8_eq]
  rw [bytes_to_u64_eq _ _ _ _ _ _ _ _ (m _) (m _) (m _) (m _) (m _) (m _) (m _) (m _)]
  rw [hspec]
  ring

set_option maxRecDepth 100000 in
theorem int64_code_DCBAHGFE (r0 r1 r2 r3 : Nat) :
    bytes_to_u64 (bytes_reverse (regs_to_bytes [swap_bytes_16 r3, swap_bytes_16 r2, swap_bytes_16 r1, swap_bytes_16 r0])) =
      int64_raw_spec .DCBAHGFE r0 r1 r2 r3 := by
  have m : ∀ x : Nat, x % 256 < 256 := fun x => Nat.mod_lt _ (by norm_num)
  have hspec : int64_raw_spec .DCBAHGFE r0 r1 r2 r3 =
      (((((((0 * 256 + r0 / 256 % 256) * 256 + r0 % 256) * 256 + r1 / 256 % 256) * 256 + r1 % 256) * 256 + r2 / 256 % 256) * 256 + r2 % 256) * 256 + r3 / 256 % 256) * 256 + r3 % 256 := rfl
  have hcode : bytes_reverse (regs_to_bytes [swap_bytes_16 r3, swap_bytes_16 r2, swap_bytes_16 r1, swap_bytes_16 r0]) =
      [swap_bytes_16 r0 &&& 0xFF,
       (swap_bytes_16 r0 >>> 8) &&& 0xFF,
       swap_bytes_16 r1 &&& 0xFF,
       (swap_bytes_16 r1 >>> 8) &&& 0xFF,
       swap_bytes_16 r2 &&& 0xFF,
       (swap_bytes_16 r2 >>> 8) &&& 0xFF,
       swap_bytes_16 r3 &&& 0xFF,
       (swap_bytes_16 r3 >>> 8) &&& 0xFF] := rfl
  rw [hcode]
  simp only [swap_hi_byte, swap_lo_byte]
  rw [bytes_to_u64_eq _ _ _ _ _ _ _ _ (m _) (m _) (m _) (m _) (m _) (m _) (m _) (m _)]
  rw [hspec]
  ring

set_option maxRecDepth 100000 in
theorem int64_code_GHEFCDAB (r0 r1 r2 r3 : Nat) :
    bytes_to_u64 (bytes_reverse (regs_to_bytes [r3, r2, r1, r0])) =
      int64_raw_spec .GHEFCDAB r0 r1 r2 r3 := by
  have m : ∀ x : Nat, x % 256 < 256 := fun x => Nat.mod_lt _ (by norm_num)
  have hspec : int64_raw_spec .GHEFCDAB r0 r1 r2 r3 =
      (((((((0 * 256 + r0 % 256) * 256 + r0 / 256 % 256) * 256 + r1 % 256) * 256 + r1 / 256 % 256) * 256 + r2 % 256) * 256 + r2 / 256 % 256) * 256 + r3 % 256) * 256 + r3 / 256 % 256 := rfl
  have hcode : bytes_reverse (regs_to_bytes [r3, r2, r1, r0]) =
      [r0 &&& 0xFF,
       (r0 >>> 8) &&& 0xFF,
       r1 &&& 0xFF,
       (r1 >>> 8) &&& 0xFF,
       r2 &&& 0xFF,
       (r2 >>> 8) &&& 0xFF,
       r3 &&& 0xFF,
       (r3 >>> 8) &&& 0xFF] := rfl
  rw [hcode]
  simp only [hi_byte_eq, lo_byte_eq, shiftRight8_eq]
  rw [bytes_to_u64_eq _ _ _ _ _ _ _ _ (m _) (m _) (m _) (m _) (m _) (m _) (m _) (m _)]
  rw [hspec]
  ring

set_option maxRecDepth 100000 in
theorem int64_code_FEHGBADC (r0 r1 r2 r3 : Nat) :
    bytes_to_u64 (bytes_reverse (regs_to_bytes [r2, r3, r0, r1])) =
      int64_raw_spec .FEHGBADC r0 r1 r2 r3 := by
  have m : ∀ x : Nat, x % 256 < 256 := fun x => Nat.mod_lt _ (by norm_num)
  have hspec : int64_raw_spec .FEHGBADC r0 r1 r2 r3 =
      (((((((0 * 256 + r1 % 256) * 256 + r1 / 256 % 256) * 256 + r0 % 256) * 256 + r0 / 256 % 256) * 256 + r3 % 256) * 256 + r3 / 256 % 256) * 256 + r2 % 256) * 256 + r2 / 256 % 256 := rfl
  have hcode : bytes_reverse (regs_to_bytes [r2, r3, r0, r1]) =
      [r1 &&& 0xFF,
       (r1 >>> 8) &&& 0xFF,
       r0 &&& 0xFF,
       (r0 >>> 8) &&& 0xFF,
       r3 &&& 0xFF,
       (r3 >>> 8) &&& 0xFF,
       r2 &&& 0xFF,
       (r2 >>> 8) &&& 0xFF] := rfl
  rw [hcode]
  simp only [hi_byte_eq, lo_byte_eq, shiftRight8_eq]
  rw [bytes_to_u64_eq _ _ _ _ _ _ _ _ (m _) (m _) (m _) (m _) (m _) (m _) (m _) (m _)]
  rw [hspec]
  ring

set_option maxRecDepth 100000 in
theorem int64_code_EFGHABCD (r0 r1 r2 r3 : Nat) :
    bytes_to_u64 (bytes_reverse (regs_to_bytes [swap_bytes_16 r2, swap_bytes_16 r3, swap_bytes_16 r0, swap_bytes_16 r1])) =
      int64_raw_spec .EFGHABCD r0 r1 r2 r3 := by
  have m : ∀ x : Nat, x % 256 < 256 := fun x => Nat.mod_lt _ (by norm_num)
  have hspec : int64_raw_spec .EFGHABCD r0 r1 r2 r3 =
      (((((((0 * 256 + r1 / 256 % 256) * 256 + r1 % 256) * 256 + r0 / 256 % 256) * 256 + r0 % 256) * 256 + r3 / 256 % 256) * 256 + r3 % 256) * 256 + r2 / 256 % 256) * 256 + r2 % 256 := rfl
  have hcode : bytes_reverse (regs_to_bytes [swap_bytes_16 r2, swap_bytes_16 r3, swap_bytes_16 r0, swap_bytes_16 r1]) =
      [swap_bytes_16 r1 &&& 0xFF,
       (swap_bytes_16 r1 >>> 8) &&& 0xFF,
       swap_bytes_16 r0 &&& 0xFF,
       (swap_bytes_16 r0 >>> 8) &&& 0xFF,
       swap_bytes_16 r3 &&& 0xFF,
       (swap_bytes_16 r3 >>> 8) &&& 0xFF,
       swap_bytes_16 r2 &&& 0xFF,
       (swap_bytes_16 r2 >>> 8) &&& 0xFF] := rfl
  rw [hcode]
  simp only [swap_hi_byte, swap_lo_byte]
  rw [bytes_to_u64_eq _ _ _ _ _ _ _ _ (m _) (m _) (m _) (m _) (m _) (m _) (m _) (m _)]
  rw [hspec]
  ring

/-- C2: for every 4-word register input and each of the eight 64-bit
patterns (under its signed or unsigned tag), the 64-bit decoder's raw
unsigned value is computed exactly as the spec's table prescribes: select
which source word supplies each destination slot, optionally swap each
selected word's bytes, serialize big-endian into 8 bytes, optionally reverse
the whole sequence, and assemble most-significant-byte-first. -/
theorem C2_int64_raw_table (t : modbus_data_type_t) (p : word64_pattern)
    (r0 r1 r2 r3 : Nat) (h : pattern_of_int64_tag t = some p) :
    (modbus_int64_bytes [r0, r1, r2, r3] t).map bytes_to_u64 =
      some (int64_raw_spec p r0 r1 r2 r3) := by
  have e0 : regIdx [r0, r1, r2, r3] 0 = r0 := rfl
  have e1 : regIdx [r0, r1, r2, r3] 1 = r1 := rfl
  have e2 : regIdx [r0, r1, r2, r3] 2 = r2 := rfl
  have e3 : regIdx [r0, r1, r2, r3] 3 = r3 := rfl
  cases t <;>
    simp only [pattern_of_int64_tag, Option.some.injEq, reduceCtorEq] at h <;>
    (subst h
     simp only [modbus_int64_bytes, e0, e1, e2, e3, Option.map_some'])
  case MODBUS_INT64_SIGNED_ABCDEFGH => exact congrArg some (int64_code_ABCDEFGH r0 r1 r2 r3)
  case MODBUS_INT64_SIGNED_HGFEDCBA => exact congrArg some (int64_code_HGFEDCBA r0 r1 r2 r3)
  case MODBUS_INT64_SIGNED_BADCFEHG => exact congrArg some (int64_code_BADCFEHG r0 r1 r2 r3)
  case MODBUS_INT64_SIGNED_CDABGHEF => exact congrArg some (int64_code_CDABGHEF r0 r1 r2 r3)
  case MODBUS_INT64_SIGNED_DCBAHGFE => exact congrArg some (int64_code_DCBAHGFE r0 r1 r2 r3)
  case MODBUS_INT64_SIGNED_GHEFCDAB => exact congrArg some (int64_code_GHEFCDAB r0 r1 r2 r3)
  case MODBUS_INT64_SIGNED_FEHGBADC => exact congrArg some (int64_code_FEHGBADC r0 r1 r2 r3)
  case MODBUS_INT64_SIGNED_EFGHABCD => exact congrArg some (int64_code_EFGHABCD r0 r1 r2 r3)
  case MODBUS_INT64_UNSIGNED_ABCDEFGH => exact congrArg some (int64_code_ABCDEFGH r0 r1 r2 r3)
  case MODBUS_INT64_UNSIGNED_HGFEDCBA => exact congrArg some (int64_code_HGFEDCBA r0 r1 r2 r3)
  case MODBUS_INT64_UNSIGNED_BADCFEHG => exact congrArg some (int64_code_BADCFEHG r0 r1 r2 r3)
  case MODBUS_INT64_UNSIGNED_CDABGHEF => exact congrArg some (int64_code_CDABGHEF r0 r1 r2 r3)
  case MODBUS_INT64_UNSIGNED_DCBAHGFE => exact congrArg some (int64_code_DCBAHGFE r0 r1 r2 r3)
  case MODBUS_INT64_UNSIGNED_GHEFCDAB => exact congrArg some (int64_code_GHEFCDAB r0 r1 r2 r3)
  case MODBUS_INT64_UNSIGNED_FEHGBADC => exact congrArg some (int64_code_FEHGBADC r0 r1 r2 r3)
  case MODBUS_INT64_UNSIGNED_EFGHABCD => exact congrArg some (int64_code_EFGHABCD r0 r1 r2 r3)

/-- Witness for C2: the EFGHABCD pattern on words
`[0x0102, 0x0304, 0x0506, 0x0708]`, whose raw value `0x0304010207080506` the
spec recipe computes. -/
theorem C2_int64_raw_table_witness :
    (modbus_int64_bytes [0x0102, 0x0304, 0x0506, 0x0708]
        MODBUS_INT64_UNSIGNED_EFGHABCD).map bytes_to_u64 =
      some (int64_raw_spec .EFGHABCD 0x0102 0x0304 0x0506 0x0708) ∧
    int64_raw_spec .EFGHABCD 0x0102 0x0304 0x0506 0x0708 = 0x0304010207080506 :=
  ⟨C2_int64_raw_table MODBUS_INT64_UNSIGNED_EFGHABCD .EFGHABCD 0x0102 0x0304 0x0506
      0x0708 rfl, by decide⟩
